import Mathlib

/-!
Verification model of the TASAUTO valuation backend (src/main.py).

The repository drives a headless browser through the coches.net valuation
form.  We embed the observable control flow of `tasar_en_coches_net` and the
HTTP wrapper `tasar` as pure Lean functions over an explicit page oracle
`Env`, which records which locator strategies find a visible element, which
result regions are visible and what text they carry, and the full rendered
document text.  The two regular expressions of the result-extraction block
are embedded as explicit greedy-with-backtracking matchers on `List Char`.
-/

namespace Tasauto

open scoped List

/-- Characters matched by the Python character class `[\d.,]` in the regex
at src/main.py line 347 (ASCII digits; unicode digits are out of scope of the
inputs considered here). -/
def isMoneyChar (c : Char) : Bool := c.isDigit || c == '.' || c == ','

/-- Characters matched by `\s` (the ASCII whitespace characters Python
treats as space). -/
def isPySpace (c : Char) : Bool :=
  c == ' ' || c == '\t' || c == '\n' || c == '\r' || c == '\x0b' || c == '\x0c'

/-- Match the regex tail `\s*€` at the head of `l`, returning the consumed
characters.  Greedy `\s*` without backtracking is faithful here: dropping
trailing spaces only re-exposes a space character, which is never `€`. -/
def trySpEuro (l : List Char) : Option (List Char) :=
  if (l.dropWhile isPySpace).head? == some '€' then
    some (l.takeWhile isPySpace ++ ['€'])
  else none

/-- Match the regex tail `[\d.,]*\s*€` at the head of `l` (the caller has
already consumed the mandatory first `[\d.,]` character), with the greedy
backtracking of the Python engine: prefer consuming another `[\d.,]`
character, and on failure of the longer attempt fall back to `\s*€` here. -/
def matchMore : List Char → Option (List Char)
  | [] => trySpEuro []
  | c :: rest =>
    if isMoneyChar c then
      match matchMore rest with
      | some s => some (c :: s)
      | none => trySpEuro (c :: rest)
    else trySpEuro (c :: rest)

/-- Match the whole regex `[\d.,]+\s*€` (src/main.py line 347) at the head
of `l`. -/
def matchAt1 (l : List Char) : Option (List Char) :=
  match l with
  | c :: rest =>
    if isMoneyChar c then
      match matchMore rest with
      | some s => some (c :: s)
      | none => none
    else none
  | [] => none

/-- `re.search` for `[\d.,]+\s*€`: the match at the leftmost position where
the pattern matches (group 0 of the Python match). -/
def search1 : List Char → Option (List Char)
  | [] => none
  | c :: rest =>
    match matchAt1 (c :: rest) with
    | some m => some m
    | none => search1 rest

/-- Match the regex tail `(?:\.\d{3})*\s*€` at the head of `l`, greedily
with backtracking: prefer consuming another `.ddd` group; if the rest then
fails, retry `\s*€` at the current position. -/
def matchStarTail : List Char → Option (List Char)
  | c :: d1 :: d2 :: d3 :: rest =>
    if c == '.' && d1.isDigit && d2.isDigit && d3.isDigit then
      match matchStarTail rest with
      | some s => some (c :: d1 :: d2 :: d3 :: s)
      | none => trySpEuro (c :: d1 :: d2 :: d3 :: rest)
    else trySpEuro (c :: d1 :: d2 :: d3 :: rest)
  | l => trySpEuro l

/-- Consume exactly `k` ASCII digits from the head of `l`. -/
def takeDigits : Nat → List Char → Option (List Char × List Char)
  | 0, l => some ([], l)
  | _ + 1, [] => none
  | k + 1, c :: rest =>
    if c.isDigit then
      match takeDigits k rest with
      | some (d, r) => some (c :: d, r)
      | none => none
    else none

/-- Try the branch of `\d{1,3}(?:\.\d{3})*\s*€` that consumes exactly `k`
leading digits. -/
def tryDigitsK (k : Nat) (l : List Char) : Option (List Char) :=
  match takeDigits k l with
  | some (d, r) =>
    match matchStarTail r with
    | some s => some (d ++ s)
    | none => none
  | none => none

/-- Match `(\d{1,3}(?:\.\d{3})*)\s*€` (src/main.py line 341) at the head of
`l`: the greedy `\d{1,3}` tries three digits first, then two, then one. -/
def matchAt2 (l : List Char) : Option (List Char) :=
  match tryDigitsK 3 l with
  | some m => some m
  | none =>
    match tryDigitsK 2 l with
    | some m => some m
    | none => tryDigitsK 1 l

/-- `re.search` for `(\d{1,3}(?:\.\d{3})*)\s*€`: group 0 of the leftmost
match. -/
def search2 : List Char → Option (List Char)
  | [] => none
  | c :: rest =>
    match matchAt2 (c :: rest) with
    | some m => some m
    | none => search2 rest

/-- Python `str.strip()`: drop whitespace from both ends. -/
def pyStrip (l : List Char) : List Char :=
  ((l.dropWhile isPySpace).reverse.dropWhile isPySpace).reverse

/-- `str.strip()` on `String`. -/
def pyStripS (s : String) : String := String.mk (pyStrip s.data)

/-- Python truthiness of an `Optional[str]`: `None` and the empty string are
falsy. -/
def pyTruthy : Option String → Bool
  | none => false
  | some s => s != ""

/-- The Python test `"€" in valor` on an `Optional[str]` (guarded by
truthiness in the source, so `none` simply answers `false` here). -/
def hasEuro : Option String → Bool
  | none => false
  | some s => s.data.contains '€'

/-- One observation of a result selector (src/main.py lines 328-336):
`none` means the locator raised or the element was not visible; `some t`
means a visible element whose `text_content()` returned `t` (itself an
`Optional[str]`). -/
abbrev RegionObs := Option (Option String)

/-- The result-selector loop of src/main.py lines 327-336: `valor` starts as
`None`, each visible region overwrites it with that region's text, and the
loop breaks at the first text that is truthy and contains `€`. -/
def regionScan : List RegionObs → Option String → Option String
  | [], v => v
  | none :: rest, v => regionScan rest v
  | some t :: rest, _ =>
    if pyTruthy t && hasEuro t then t else regionScan rest t

/-- The message of the exception raised at src/main.py line 353. -/
def resultNotFoundMsg : String := "No se encontró el resultado de la tasación"

/-- The value-cleaning step, src/main.py lines 346-349: `re.search` of
`[\d.,]+\s*€` over the found text, keeping the raw text when that search
fails. -/
def cleanValor (v : String) : String :=
  match search1 v.data with
  | some m => String.mk m
  | none => v

/-- The final step of the extraction block, src/main.py lines 345-353: a
truthy `valor` is cleaned, stripped and returned; a falsy one raises the
result-not-found exception. -/
def finishValor : Option String → Except String String
  | some v =>
    if v != "" then Except.ok (pyStripS (cleanValor v))
    else Except.error resultNotFoundMsg
  | none => Except.error resultNotFoundMsg

/-- The result-extraction block, src/main.py lines 327-353: scan the result
regions; if `valor` is still falsy, fall back to `re.search` of
`(\d{1,3}(?:\.\d{3})*)\s*€` on the full document text; then finish with
`finishValor`. -/
def extractValor (regions : List RegionObs) (fullText : String) :
    Except String String :=
  let v0 := regionScan regions none
  let v1 :=
    if !pyTruthy v0 then
      match search2 fullText.data with
      | some m => some (String.mk m)
      | none => v0
    else v0
  finishValor v1

instance : DecidableEq (Except String String) := fun x y =>
  match x, y with
  | Except.ok a, Except.ok b =>
    if h : a = b then isTrue (by rw [h]) else isFalse (by intro he; cases he; exact h rfl)
  | Except.error a, Except.error b =>
    if h : a = b then isTrue (by rw [h]) else isFalse (by intro he; cases he; exact h rfl)
  | Except.ok _, Except.error _ => isFalse (by intro he; cases he)
  | Except.error _, Except.ok _ => isFalse (by intro he; cases he)

/-- The pydantic request model `TasacionRequest` (src/main.py lines 38-44). -/
structure TasacionRequest where
  marca : String
  modelo : String
  version : String
  anio : Int
  kms : Int
deriving DecidableEq

/-- The pydantic response model `TasacionResponse` (src/main.py lines 46-49);
`valor` and `error` default to `None`. -/
structure TasacionResponse where
  ok : Bool
  valor : Option String := none
  error : Option String := none
deriving DecidableEq

/-- Page oracle: which locator strategies of `tasar_en_coches_net` find a
visible element on the live page, what the result regions show, and the full
rendered document text.  Each boolean summarises one try-a-list-of-selectors
loop of the source ("some selector in the list found a visible element"). -/
structure Env where
  /-- `page.goto` (line 82) raises `PlaywrightTimeout`. -/
  gotoFails : Bool
  /-- some cookie selector (lines 91-98) finds a visible button. -/
  cookieVisible : Bool
  /-- `wait_for_load_state("networkidle")` (line 114) raises
  `PlaywrightTimeout`. -/
  networkidleFails : Bool
  /-- some selector in `marca_selectors` (lines 156-161) is visible. -/
  marcaDropdown : Bool
  /-- the brand option (line 179) is visible. -/
  marcaOption : Bool
  /-- some selector in `modelo_selectors` (lines 194-198) is visible. -/
  modeloDropdown : Bool
  /-- the model option (line 214) is visible. -/
  modeloOption : Bool
  /-- some selector in `anio_selectors` (lines 223-227) is visible. -/
  anioDropdown : Bool
  /-- the year option (line 243) is visible. -/
  anioOption : Bool
  /-- some selector in `km_selectors` (lines 252-257) is visible. -/
  kmInput : Bool
  /-- some selector in `cp_selectors` (lines 274-279) is visible. -/
  cpInput : Bool
  /-- some selector in `submit_selectors` (lines 296-302) is visible. -/
  submitBtn : Bool
  /-- observations of the five `result_selectors` tries (lines 319-336). -/
  regions : List RegionObs
  /-- `page.content()` (line 340). -/
  fullText : String
deriving DecidableEq

/-- Observable events of one valuation run: session lifecycle, navigation,
consent dismissal, each form-field population (with the value written), and
the submit click.  The source has no interaction for the request's `version`
(trim) field, so no such event exists. -/
inductive Ev where
  | openSession
  | closeSession
  | navigate
  | acceptCookies
  | setMarca (v : String)
  | setModelo (v : String)
  | setAnio (v : String)
  | setKms (v : String)
  | setCP (v : String)
  | submitForm
deriving DecidableEq

/-- The message of the exception raised at src/main.py line 362 when a
`PlaywrightTimeout` escapes the body. -/
def pageTimeoutMsg : String := "La página tardó demasiado en responder"

/-- The message of the exception raised at src/main.py line 186 when no
brand-dropdown strategy resolves. -/
def marcaNotFoundMsg : String := "No se pudo encontrar el formulario de marca"

/-- Events emitted before the form is driven: navigation (line 82) and
best-effort cookie dismissal (lines 88-110, never an error). -/
def preEvents (env : Env) : List Ev :=
  Ev.navigate :: (if env.cookieVisible then [Ev.acceptCookies] else [])

/-- Events of the form-driving section (src/main.py lines 152-316), in
source order.  A field is filled only when its dropdown (and, for selects,
its option) is visible; the source raises only for a missing brand dropdown,
which is handled in `coreBody`.  Model, year, mileage, postal code and
submit are silently skipped when unresolved (their loops have no `else`).
The postal value is the constant `"28001"` (line 285); the request carries
no postal field. -/
def formEvents (env : Env) (data : TasacionRequest) : List Ev :=
  (if env.marcaOption then [Ev.setMarca data.marca] else []) ++
  (if env.modeloDropdown && env.modeloOption then [Ev.setModelo data.modelo] else []) ++
  (if env.anioDropdown && env.anioOption then [Ev.setAnio (toString data.anio)] else []) ++
  (if env.kmInput then [Ev.setKms (toString data.kms)] else []) ++
  (if env.cpInput then [Ev.setCP "28001"] else []) ++
  (if env.submitBtn then [Ev.submitForm] else [])

/-- The `try` body of `tasar_en_coches_net` together with its two `except`
clauses (src/main.py lines 79-370): a `PlaywrightTimeout` from `goto` or
`wait_for_load_state` becomes the page-timeout exception (line 362); a
missing brand dropdown raises at line 186 and is re-raised unchanged at
line 370; otherwise the form events happen and the result-extraction block
decides the outcome.  Returns the outcome and the emitted events. -/
def coreBody (env : Env) (data : TasacionRequest) :
    Except String String × List Ev :=
  if env.gotoFails then (Except.error pageTimeoutMsg, [])
  else if env.networkidleFails then (Except.error pageTimeoutMsg, preEvents env)
  else if !env.marcaDropdown then (Except.error marcaNotFoundMsg, preEvents env)
  else (extractValor env.regions env.fullText, preEvents env ++ formEvents env data)

/-- `tasar_en_coches_net` (src/main.py lines 52-372): launch the browser
(line 62), run the body, and close the browser in the `finally` clause
(line 372) on every path. -/
def tasar_en_coches_net (env : Env) (data : TasacionRequest) :
    Except String String × List Ev :=
  ((coreBody env data).1,
    Ev.openSession :: (coreBody env data).2 ++ [Ev.closeSession])

/-- The generic user-facing message of src/main.py line 390. -/
def genericErrorMsg : String :=
  "No se ha podido obtener la tasación en este momento."

/-- The `/api/tasar` endpoint `tasar` (src/main.py lines 375-391): any
exception from the core becomes `ok=False` with the fixed generic message;
success wraps the value. -/
def tasar (env : Env) (req : TasacionRequest) : TasacionResponse × List Ev :=
  match tasar_en_coches_net env req with
  | (Except.ok v, evs) => ({ ok := true, valor := some v, error := none }, evs)
  | (Except.error _, evs) =>
    ({ ok := false, valor := none, error := some genericErrorMsg }, evs)

/-- The canonical maximal event sequence of one run: every run's trace is a
subsequence of this list, which fixes the relative order of all observable
steps (brand, model, year, mileage, postal, submit). -/
def canonicalTrace (data : TasacionRequest) : List Ev :=
  [Ev.openSession, Ev.navigate, Ev.acceptCookies,
   Ev.setMarca data.marca, Ev.setModelo data.modelo,
   Ev.setAnio (toString data.anio), Ev.setKms (toString data.kms),
   Ev.setCP "28001", Ev.submitForm, Ev.closeSession]

/-- The field-population part of `canonicalTrace`. -/
def fieldChain (data : TasacionRequest) : List Ev :=
  [Ev.setMarca data.marca, Ev.setModelo data.modelo,
   Ev.setAnio (toString data.anio), Ev.setKms (toString data.kms),
   Ev.setCP "28001", Ev.submitForm]

/-- Recogniser for postal-code events. -/
def isSetCPEv : Ev → Bool
  | .setCP _ => true
  | _ => false

/-- Recogniser for the events that the claim about submission order speaks
of: mileage fill, postal fill, submit click. -/
def isLateFieldEv : Ev → Bool
  | .setKms _ => true
  | .setCP _ => true
  | .submitForm => true
  | _ => false

/-- A request with an empty trim, used as concrete input. -/
def reqSeat : TasacionRequest :=
  { marca := "Seat", modelo := "Ibiza", version := "", anio := 2018, kms := 85000 }

/-- The same car with a non-empty trim. -/
def reqSeatFR : TasacionRequest :=
  { marca := "Seat", modelo := "Ibiza", version := "FR", anio := 2018, kms := 85000 }

/-- A page on which every strategy resolves and the result region shows a
price. -/
def envAllGood : Env :=
  { gotoFails := false, cookieVisible := true, networkidleFails := false,
    marcaDropdown := true, marcaOption := true,
    modeloDropdown := true, modeloOption := true,
    anioDropdown := true, anioOption := true,
    kmInput := true, cpInput := true, submitBtn := true,
    regions := [some (some "Precio estimado: 12.500 € aprox.")],
    fullText := "" }

/-- As `envAllGood` but no model-dropdown strategy resolves. -/
def envModeloMissing : Env := { envAllGood with modeloDropdown := false }

/-- As `envAllGood` but neither the model nor the year dropdown resolves. -/
def envModeloAnioMissing : Env :=
  { envAllGood with modeloDropdown := false, anioDropdown := false }

/-- As `envAllGood` but no brand-dropdown strategy resolves. -/
def envMarcaMissing : Env := { envAllGood with marcaDropdown := false }

/-- As `envAllGood` but no postal-code input strategy resolves. -/
def envCPMissing : Env := { envAllGood with cpInput := false }

/-- As `envAllGood` but the visible result region shows text without any
currency pattern. -/
def envRegionJunk : Env :=
  { envAllGood with regions := [some (some "resultado pendiente")] }

/-- Does one region observation consist of a visible element whose stripped
text is exactly `v`? -/
def regionGives (v : String) : RegionObs → Bool
  | some (some t) => v == pyStripS t
  | _ => false

/-! ### Trace lemmas -/

lemma cond_singleton_sublist (b : Bool) (x : Ev) :
    (if b then [x] else []) <+ [x] := by
  cases b <;> simp

lemma formEvents_sublist (env : Env) (data : TasacionRequest) :
    formEvents env data <+ fieldChain data := by
  show _ <+ ((((([Ev.setMarca data.marca] ++ [Ev.setModelo data.modelo]) ++
    [Ev.setAnio (toString data.anio)]) ++ [Ev.setKms (toString data.kms)]) ++
      [Ev.setCP "28001"]) ++ [Ev.submitForm])
  exact List.Sublist.append
    (List.Sublist.append
      (List.Sublist.append
        (List.Sublist.append
          (List.Sublist.append (cond_singleton_sublist _ _) (cond_singleton_sublist _ _))
          (cond_singleton_sublist _ _))
        (cond_singleton_sublist _ _))
      (cond_singleton_sublist _ _))
    (cond_singleton_sublist _ _)

lemma preEvents_sublist (env : Env) (l : List Ev) :
    preEvents env <+ Ev.navigate :: Ev.acceptCookies :: l := by
  refine List.Sublist.cons₂ _ ?_
  cases h : env.cookieVisible <;> simp

lemma coreBody_events_sublist (env : Env) (data : TasacionRequest) :
    (coreBody env data).2 <+ Ev.navigate :: Ev.acceptCookies :: fieldChain data := by
  unfold coreBody
  split
  · simp
  split
  · exact preEvents_sublist env _
  split
  · exact preEvents_sublist env _
  · show preEvents env ++ formEvents env data <+ _
    show Ev.navigate :: ((if env.cookieVisible then [Ev.acceptCookies] else []) ++
      formEvents env data) <+ Ev.navigate :: ([Ev.acceptCookies] ++ fieldChain data)
    exact List.Sublist.cons₂ _
      (List.Sublist.append (cond_singleton_sublist _ _) (formEvents_sublist env data))

lemma tasar_trace (env : Env) (req : TasacionRequest) :
    (tasar env req).2 = Ev.openSession :: (coreBody env req).2 ++ [Ev.closeSession] := by
  cases h : (coreBody env req).1 <;> simp [tasar, tasar_en_coches_net, h]

lemma tasar_trace_sublist (env : Env) (req : TasacionRequest) :
    (tasar env req).2 <+ canonicalTrace req := by
  rw [tasar_trace]
  show Ev.openSession :: ((coreBody env req).2 ++ [Ev.closeSession]) <+
    Ev.openSession :: ((Ev.navigate :: Ev.acceptCookies :: fieldChain req) ++ [Ev.closeSession])
  exact List.Sublist.cons₂ _
    (List.Sublist.append (coreBody_events_sublist env req) (List.Sublist.refl _))

/-! ### Currency-symbol lemmas for the two regex matchers -/

lemma euro_mem_trySpEuro : ∀ {l m : List Char}, trySpEuro l = some m → '€' ∈ m := by
  intro l m h
  unfold trySpEuro at h
  split at h
  · obtain rfl := Option.some.inj h
    exact List.mem_append_right _ (List.mem_singleton.mpr rfl)
  · simp at h

lemma euro_mem_matchMore : ∀ {l m : List Char}, matchMore l = some m → '€' ∈ m := by
  intro l
  induction l with
  | nil => intro m h; exact euro_mem_trySpEuro h
  | cons c rest ih =>
    intro m h
    simp only [matchMore] at h
    split at h
    · rcases hr : matchMore rest with _ | s <;> rw [hr] at h
      · exact euro_mem_trySpEuro h
      · obtain rfl := Option.some.inj h
        exact List.mem_cons_of_mem _ (ih hr)
    · exact euro_mem_trySpEuro h

lemma euro_mem_matchAt1 : ∀ {l m : List Char}, matchAt1 l = some m → '€' ∈ m := by
  intro l m h
  rcases l with _ | ⟨c, rest⟩
  · simp [matchAt1] at h
  · simp only [matchAt1] at h
    split at h
    · rcases hr : matchMore rest with _ | s <;> rw [hr] at h
      · simp at h
      · obtain rfl := Option.some.inj h
        exact List.mem_cons_of_mem _ (euro_mem_matchMore hr)
    · simp at h

lemma euro_mem_search1 : ∀ {l m : List Char}, search1 l = some m → '€' ∈ m := by
  intro l
  induction l with
  | nil => intro m h; simp [search1] at h
  | cons c rest ih =>
    intro m h
    simp only [search1] at h
    rcases ha : matchAt1 (c :: rest) with _ | m' <;> rw [ha] at h
    · exact ih h
    · obtain rfl := Option.some.inj h
      exact euro_mem_matchAt1 ha

lemma euro_mem_matchStarTail : ∀ (n : Nat) (l : List Char), l.length ≤ n →
    ∀ {m : List Char}, matchStarTail l = some m → '€' ∈ m := by
  intro n
  induction n with
  | zero =>
    intro l hl m h
    obtain rfl : l = [] := List.length_eq_zero.mp (Nat.le_zero.mp hl)
    exact euro_mem_trySpEuro h
  | succ n ih =>
    intro l hl m h
    rcases l with _ | ⟨c, l1⟩
    · exact euro_mem_trySpEuro h
    rcases l1 with _ | ⟨d1, l2⟩
    · exact euro_mem_trySpEuro h
    rcases l2 with _ | ⟨d2, l3⟩
    · exact euro_mem_trySpEuro h
    rcases l3 with _ | ⟨d3, rest⟩
    · exact euro_mem_trySpEuro h
    rw [show matchStarTail (c :: d1 :: d2 :: d3 :: rest) =
        (if c == '.' && d1.isDigit && d2.isDigit && d3.isDigit then
          match matchStarTail rest with
          | some s => some (c :: d1 :: d2 :: d3 :: s)
          | none => trySpEuro (c :: d1 :: d2 :: d3 :: rest)
        else trySpEuro (c :: d1 :: d2 :: d3 :: rest)) from rfl] at h
    have hrest : rest.length ≤ n := by
      simp only [List.length_cons] at hl
      omega
    split at h
    · rcases hr : matchStarTail rest with _ | s <;> rw [hr] at h
      · exact euro_mem_trySpEuro h
      · obtain rfl := Option.some.inj h
        have hs := ih rest hrest hr
        simp [hs]
    · exact euro_mem_trySpEuro h

lemma euro_mem_matchStarTail' {l m : List Char} (h : matchStarTail l = some m) :
    '€' ∈ m :=
  euro_mem_matchStarTail l.length l (Nat.le_refl _) h

lemma euro_mem_tryDigitsK : ∀ {k : Nat} {l m : List Char},
    tryDigitsK k l = some m → '€' ∈ m := by
  intro k l m h
  simp only [tryDigitsK] at h
  rcases ht : takeDigits k l with _ | ⟨d, r⟩ <;> rw [ht] at h
  · simp at h
  · dsimp only at h
    rcases hs : matchStarTail r with _ | s <;> rw [hs] at h
    · simp at h
    · obtain rfl := Option.some.inj h
      exact List.mem_append_right _ (euro_mem_matchStarTail' hs)

lemma euro_mem_matchAt2 : ∀ {l m : List Char}, matchAt2 l = some m → '€' ∈ m := by
  intro l m h
  simp only [matchAt2] at h
  rcases h3 : tryDigitsK 3 l with _ | m3 <;> rw [h3] at h
  · rcases h2 : tryDigitsK 2 l with _ | m2 <;> rw [h2] at h
    · exact euro_mem_tryDigitsK h
    · obtain rfl := Option.some.inj h
      exact euro_mem_tryDigitsK h2
  · obtain rfl := Option.some.inj h
    exact euro_mem_tryDigitsK h3

lemma euro_mem_search2 : ∀ {l m : List Char}, search2 l = some m → '€' ∈ m := by
  intro l
  induction l with
  | nil => intro m h; simp [search2] at h
  | cons c rest ih =>
    intro m h
    simp only [search2] at h
    rcases ha : matchAt2 (c :: rest) with _ | m' <;> rw [ha] at h
    · exact ih h
    · obtain rfl := Option.some.inj h
      exact euro_mem_matchAt2 ha

lemma mem_dropWhile_of_neg {p : Char → Bool} {c : Char} (hc : p c = false) :
    ∀ {l : List Char}, c ∈ l → c ∈ l.dropWhile p := by
  intro l
  induction l with
  | nil => intro h; exact absurd h (List.not_mem_nil c)
  | cons a t ih =>
    intro h
    rw [List.dropWhile_cons]
    split
    · rename_i hpa
      rcases List.mem_cons.mp h with rfl | hmem
      · rw [hc] at hpa; simp at hpa
      · exact ih hmem
    · exact h

lemma euro_mem_pyStrip {l : List Char} (h : '€' ∈ l) : '€' ∈ pyStrip l := by
  unfold pyStrip
  have h1 : '€' ∈ l.dropWhile isPySpace := mem_dropWhile_of_neg (by decide) h
  have h2 : '€' ∈ (l.dropWhile isPySpace).reverse := List.mem_reverse.mpr h1
  have h3 : '€' ∈ (l.dropWhile isPySpace).reverse.dropWhile isPySpace :=
    mem_dropWhile_of_neg (by decide) h2
  exact List.mem_reverse.mpr h3

/-! ### Region-scan lemmas -/

lemma regionScan_mem : ∀ (regions : List RegionObs) (acc : Option String)
    (s : String), regionScan regions acc = some s →
    some (some s) ∈ regions ∨ acc = some s := by
  intro regions
  induction regions with
  | nil => intro acc s h; exact Or.inr h
  | cons r rest ih =>
    intro acc s h
    rcases r with _ | t
    · rcases ih acc s h with hm | ha
      · exact Or.inl (List.mem_cons_of_mem _ hm)
      · exact Or.inr ha
    · simp only [regionScan] at h
      split at h
      · obtain rfl := h
        exact Or.inl (List.mem_cons_self _ _)
      · rcases ih t s h with hm | ha
        · exact Or.inl (List.mem_cons_of_mem _ hm)
        · exact Or.inl (ha ▸ List.mem_cons_self _ _)

lemma regionScan_all_none : ∀ (regions : List RegionObs) (acc : Option String),
    regions.all (fun r => r == none) = true → regionScan regions acc = acc := by
  intro regions
  induction regions with
  | nil => intro acc _; rfl
  | cons r rest ih =>
    intro acc hall
    rw [List.all_cons] at hall
    obtain ⟨hr, hrest⟩ := Bool.and_eq_true_iff.mp hall
    obtain rfl : r = none := eq_of_beq hr
    exact ih acc hrest

/-! ### Extraction lemmas -/

lemma euro_mem_cleanValor {v : String} (h : '€' ∈ v.data) :
    '€' ∈ (cleanValor v).data := by
  unfold cleanValor
  rcases hs : search1 v.data with _ | m
  · exact h
  · exact euro_mem_search1 hs

lemma euro_mem_cleanValor_of_search1 {v : String} {m : List Char}
    (hs : search1 v.data = some m) : '€' ∈ (cleanValor v).data := by
  unfold cleanValor
  rw [hs]
  exact euro_mem_search1 hs

lemma finishValor_ok {w : Option String} {v : String}
    (h : finishValor w = Except.ok v) :
    ∃ u, w = some u ∧ (u != "") = true ∧ v = pyStripS (cleanValor u) := by
  rcases w with _ | u
  · exact Except.noConfusion h
  · have h2 : (if (u != "") = true then Except.ok (pyStripS (cleanValor u))
        else Except.error resultNotFoundMsg) = Except.ok v := h
    split at h2
    · rename_i hu
      exact ⟨u, rfl, hu, (Except.ok.inj h2).symm⟩
    · exact Except.noConfusion h2

lemma extract_ok_source : ∀ {regions : List RegionObs} {full v : String},
    extractValor regions full = Except.ok v →
    '€' ∈ v.data ∨ regions.any (regionGives v) = true := by
  intro regions full v h
  simp only [extractValor] at h
  obtain ⟨u, hw, hune, hv⟩ := finishValor_ok h
  cases h0 : regionScan regions none with
  | none =>
    rw [h0] at hw
    cases hs : search2 full.data with
    | none =>
      rw [hs] at hw
      simp at hw
    | some m =>
      rw [hs] at hw
      rw [show (!pyTruthy none) = true from rfl] at hw
      simp only [if_true] at hw
      obtain rfl : String.mk m = u := Option.some.inj hw
      refine Or.inl ?_
      rw [hv]
      exact euro_mem_pyStrip (euro_mem_cleanValor (euro_mem_search2 hs))
  | some t =>
    rw [h0] at hw
    cases htb : pyTruthy (some t) with
    | false =>
      rw [htb] at hw
      simp only [Bool.not_false, if_true] at hw
      cases hs : search2 full.data with
      | none =>
        rw [hs] at hw
        obtain rfl : t = u := Option.some.inj hw
        have ht0 : (t != "") = false := htb
        rw [ht0] at hune
        exact Bool.noConfusion hune
      | some m =>
        rw [hs] at hw
        obtain rfl : String.mk m = u := Option.some.inj hw
        refine Or.inl ?_
        rw [hv]
        exact euro_mem_pyStrip (euro_mem_cleanValor (euro_mem_search2 hs))
    | true =>
      rw [htb] at hw
      simp only [Bool.not_true, if_false] at hw
      obtain rfl : t = u := Option.some.inj hw
      cases hs1 : search1 t.data with
      | some m2 =>
        refine Or.inl ?_
        rw [hv]
        exact euro_mem_pyStrip (euro_mem_cleanValor_of_search1 hs1)
      | none =>
        refine Or.inr ?_
        have hmem : some (some t) ∈ regions := by
          rcases regionScan_mem regions none t h0 with hm | ha
          · exact hm
          · exact Option.noConfusion ha
        refine List.any_eq_true.mpr ⟨some (some t), hmem, ?_⟩
        have hcv : cleanValor t = t := by
          unfold cleanValor
          rw [hs1]
        show (v == pyStripS t) = true
        rw [hv, hcv]
        exact beq_self_eq_true _

lemma coreBody_ok {env : Env} {req : TasacionRequest} {w : String}
    (h : (coreBody env req).1 = Except.ok w) :
    extractValor env.regions env.fullText = Except.ok w := by
  unfold coreBody at h
  split at h
  · exact Except.noConfusion h
  split at h
  · exact Except.noConfusion h
  split at h
  · exact Except.noConfusion h
  · exact h

/-! ### Claim theorems -/

/-- C1 (counterexample): the claim as stated is false on the code.  On a
page where no model-dropdown strategy resolves (`modeloDropdown = false`)
but everything else works, the run does not fail: it returns `ok = true`
with a value, because the model branch of `tasar_en_coches_net` has no
`else` and silently skips an unresolved model control. -/
theorem C1_counterexample :
    envModeloMissing.modeloDropdown = false ∧
    (tasar envModeloMissing reqSeat).1.ok = true ∧
    (tasar envModeloMissing reqSeat).1.valor = some "12.500 €" := by
  decide

/-- C1 (amended): every unsuccessful run carries exactly the fixed generic
error message (so no raw exception or selector text ever reaches the
caller, and the message is non-empty), and an unresolvable brand control
makes the run unsuccessful.  An unresolvable model control alone does not
(see the counterexample). -/
theorem C1_amended_failure_policy (env : Env) (req : TasacionRequest) :
    ((tasar env req).1.ok = false → (tasar env req).1.error = some genericErrorMsg) ∧
    (env.gotoFails = false → env.networkidleFails = false →
      env.marcaDropdown = false → (tasar env req).1.ok = false) ∧
    genericErrorMsg ≠ "" := by
  refine ⟨?_, ?_, by decide⟩
  · intro hok
    cases h : (coreBody env req).1 with
    | ok w => simp [tasar, tasar_en_coches_net, h] at hok
    | error e => simp [tasar, tasar_en_coches_net, h]
  · intro hg hn hm
    simp [tasar, tasar_en_coches_net, coreBody, hg, hn, hm]

/-- C1 (witness): the amended theorem applied to a concrete page without a
resolvable brand control. -/
theorem C1_witness :
    (tasar envMarcaMissing reqSeat).1.ok = false ∧
    (tasar envMarcaMissing reqSeat).1.error = some genericErrorMsg := by
  have h := C1_amended_failure_policy envMarcaMissing reqSeat
  have hok := h.2.1 rfl rfl rfl
  exact ⟨hok, h.1 hok⟩

/-- C2 (counterexample): the claim as stated is false on the code.  The
text "Cargando resultado" contains no currency pattern (both regex searches
fail on it), yet the extractor applied to it as a visible result region
returns it verbatim as a success instead of failing with the
result-not-found error, because the fallback and the error are reached only
when `valor` is falsy. -/
theorem C2_counterexample :
    search1 "Cargando resultado".data = none ∧
    search2 "Cargando resultado".data = none ∧
    extractValor [some (some "Cargando resultado")] "" =
      Except.ok "Cargando resultado" := by
  decide

/-- C2 (amended): the monetary extractor returns "12.500 €" for a region
text containing "Precio estimado: 12.500 € aprox." and "8750€" for a region
text containing "valor: 8750€ (orientativo)"; and it fails with the
result-not-found error when no result region yields any text and the full
document text contains no currency pattern.  (A visible region text without
a currency pattern is returned verbatim instead — see the
counterexample.) -/
theorem C2_amended_extractor :
    extractValor [some (some "Precio estimado: 12.500 € aprox.")] "" =
      Except.ok "12.500 €" ∧
    extractValor [some (some "valor: 8750€ (orientativo)")] "" =
      Except.ok "8750€" ∧
    ∀ (regions : List RegionObs) (full : String),
      regions.all (fun r => r == none) = true →
      search2 full.data = none →
      extractValor regions full = Except.error resultNotFoundMsg := by
  refine ⟨by decide, by decide, ?_⟩
  intro regions full hall hs
  have h0 : regionScan regions none = none := regionScan_all_none regions none hall
  simp only [extractValor, h0, hs]
  rfl

/-- C2 (witness): the amended theorem applied to a concrete page with no
visible result region and no currency pattern in the document. -/
theorem C2_witness :
    ([(none : RegionObs)].all (fun r => r == none) = true) ∧
    search2 "sin resultado".data = none ∧
    extractValor [none] "sin resultado" = Except.error resultNotFoundMsg := by
  refine ⟨by decide, by decide, ?_⟩
  exact C2_amended_extractor.2.2 [none] "sin resultado" (by decide) (by decide)

/-- C3 (counterexample): the claim as stated is false on the code.  On a
page where neither the model dropdown nor the year dropdown resolves, the
run still reaches submission and returns `ok = true`: unresolved model and
year controls are silently skipped, not fatal. -/
theorem C3_counterexample :
    envModeloAnioMissing.modeloDropdown = false ∧
    envModeloAnioMissing.anioDropdown = false ∧
    (tasar envModeloAnioMissing reqSeat).1.ok = true ∧
    Ev.submitForm ∈ (tasar envModeloAnioMissing reqSeat).2 := by
  decide

/-- C3 (amended): only the brand control is fatal.  When navigation
succeeds but no brand-dropdown strategy resolves, the core fails with the
field-resolution error of line 186, the form is never submitted, and the
caller sees an unsuccessful result.  Unresolved model or year controls do
not abort the run (see the counterexample). -/
theorem C3_amended_only_brand_fatal (env : Env) (req : TasacionRequest)
    (hg : env.gotoFails = false) (hn : env.networkidleFails = false)
    (hm : env.marcaDropdown = false) :
    (tasar_en_coches_net env req).1 = Except.error marcaNotFoundMsg ∧
    Ev.submitForm ∉ (tasar_en_coches_net env req).2 ∧
    (tasar env req).1.ok = false := by
  have hb : coreBody env req = (Except.error marcaNotFoundMsg, preEvents env) := by
    simp [coreBody, hg, hn, hm]
  refine ⟨?_, ?_, ?_⟩
  · simp [tasar_en_coches_net, hb]
  · simp only [tasar_en_coches_net, hb]
    cases hc : env.cookieVisible <;> simp [preEvents, hc]
  · simp [tasar, tasar_en_coches_net, hb]

/-- C3 (witness): the amended theorem applied to a concrete page without a
resolvable brand control. -/
theorem C3_witness :
    (tasar_en_coches_net envMarcaMissing reqSeat).1 = Except.error marcaNotFoundMsg ∧
    Ev.submitForm ∉ (tasar_en_coches_net envMarcaMissing reqSeat).2 ∧
    (tasar envMarcaMissing reqSeat).1.ok = false :=
  C3_amended_only_brand_fatal envMarcaMissing reqSeat rfl rfl rfl

/-- C4 (confirmed): in every run, on every exit path, exactly one
session-open and exactly one session-close event occur in the trace: the
browser is launched once and the `finally` clause closes it once, so no
browser process is leaked. -/
theorem C4_session_balance (env : Env) (req : TasacionRequest) :
    (tasar env req).2.count Ev.openSession = 1 ∧
    (tasar env req).2.count Ev.closeSession = 1 := by
  have hopen_le := (tasar_trace_sublist env req).count_le Ev.openSession
  have hclose_le := (tasar_trace_sublist env req).count_le Ev.closeSession
  have hcan_open : (canonicalTrace req).count Ev.openSession = 1 := rfl
  have hcan_close : (canonicalTrace req).count Ev.closeSession = 1 := rfl
  rw [hcan_open] at hopen_le
  rw [hcan_close] at hclose_le
  have hopen_mem : Ev.openSession ∈ (tasar env req).2 := by
    rw [tasar_trace]
    exact List.mem_append_left _ (List.mem_cons_self _ _)
  have hclose_mem : Ev.closeSession ∈ (tasar env req).2 := by
    rw [tasar_trace]
    exact List.mem_append_right _ (List.mem_singleton.mpr rfl)
  have h1 := List.count_pos_iff.mpr hopen_mem
  have h2 := List.count_pos_iff.mpr hclose_mem
  omega

/-- C5 (confirmed): the whole observable trace of every run is a
subsequence of the canonical order open, navigate, consent, brand, model,
year, mileage, postal, submit, close — so the fields that are populated are
always populated in the order brand, model, year, all before mileage,
postal code and submission, whatever subset of them resolves.  (The
request's trim field has no interaction at all in the source, so the
optional trim step of the claim is vacuously in order.) -/
theorem C5_field_order (env : Env) (req : TasacionRequest) :
    (tasar env req).2 <+ canonicalTrace req :=
  tasar_trace_sublist env req

/-- C6 (confirmed): in every response returned to the caller, `valor` is
populated exactly when `ok` is true and `error` is populated exactly when
`ok` is false. -/
theorem C6_exactly_one_populated (env : Env) (req : TasacionRequest) :
    (tasar env req).1.valor.isSome = (tasar env req).1.ok ∧
    (tasar env req).1.error.isSome = !(tasar env req).1.ok := by
  cases h : (coreBody env req).1 with
  | ok w => simp [tasar, tasar_en_coches_net, h]
  | error e => simp [tasar, tasar_en_coches_net, h]

/-- C7 (counterexample): the claim as stated is false on the code.  On a
page where no postal-code input strategy resolves, the run fills no postal
value at all and still submits the form and succeeds — the postal field
does not receive the fixed default in every run. -/
theorem C7_counterexample :
    ((tasar envCPMissing reqSeat).2.filter isSetCPEv = []) ∧
    Ev.submitForm ∈ (tasar envCPMissing reqSeat).2 ∧
    (tasar envCPMissing reqSeat).1.ok = true := by
  decide

/-- C7 (amended): whenever the postal-code field is filled it receives
exactly the fixed default "28001" — a constant of the system, never a
caller-supplied value (the request has no postal field) — and any mileage
or postal fill happens before any submit click; but when the input cannot
be located the fill is skipped and submission can still proceed (see the
counterexample). -/
theorem C7_amended_postal_fixed (env : Env) (req : TasacionRequest) :
    (tasar env req).2.filter isSetCPEv <+ [Ev.setCP "28001"] ∧
    (tasar env req).2.filter isLateFieldEv <+
      [Ev.setKms (toString req.kms), Ev.setCP "28001", Ev.submitForm] := by
  constructor
  · have h := (tasar_trace_sublist env req).filter isSetCPEv
    have e : (canonicalTrace req).filter isSetCPEv = [Ev.setCP "28001"] := rfl
    rw [e] at h
    exact h
  · have h := (tasar_trace_sublist env req).filter isLateFieldEv
    have e : (canonicalTrace req).filter isLateFieldEv =
        [Ev.setKms (toString req.kms), Ev.setCP "28001", Ev.submitForm] := rfl
    rw [e] at h
    exact h

/-- C8 (confirmed): a non-empty trim value never causes failure — the
source contains no interaction for the trim control at all, so a trim
control that cannot be found is the universal situation — and whenever
navigation works, the fatal brand control and the model and year controls
resolve, and a result is extracted, the run returns `ok = true` with that
value, whatever the trim. -/
theorem C8_trim_skippable (env : Env) (req : TasacionRequest) (v : String)
    (_hversion : req.version ≠ "")
    (hg : env.gotoFails = false) (hn : env.networkidleFails = false)
    (hm : env.marcaDropdown = true) (_hmo : env.marcaOption = true)
    (_hmd : env.modeloDropdown = true) (_hmop : env.modeloOption = true)
    (_had : env.anioDropdown = true) (_hao : env.anioOption = true)
    (hex : extractValor env.regions env.fullText = Except.ok v) :
    (tasar env req).1 = { ok := true, valor := some v, error := none } := by
  have hb : (coreBody env req).1 = Except.ok v := by
    simp [coreBody, hg, hn, hm, hex]
  simp [tasar, tasar_en_coches_net, hb]

/-- C8 (witness): the theorem applied to a concrete request with trim "FR"
on a fully resolvable page. -/
theorem C8_witness :
    (tasar envAllGood reqSeatFR).1 =
      { ok := true, valor := some "12.500 €", error := none } :=
  C8_trim_skippable envAllGood reqSeatFR "12.500 €" (by decide)
    rfl rfl rfl rfl rfl rfl rfl rfl (by decide)

/-- C9 (confirmed): the trim field of the request never influences the
run.  Two requests that agree on brand, model, year and mileage but differ
arbitrarily in `version` produce identical results and identical event
traces against every page behaviour: the automation never reads
`version`. -/
theorem C9_version_noninterference (env : Env) (r1 r2 : TasacionRequest)
    (h1 : r1.marca = r2.marca) (h2 : r1.modelo = r2.modelo)
    (h3 : r1.anio = r2.anio) (h4 : r1.kms = r2.kms) :
    tasar env r1 = tasar env r2 := by
  obtain ⟨m1, mo1, v1, a1, k1⟩ := r1
  obtain ⟨m2, mo2, v2, a2, k2⟩ := r2
  replace h1 : m1 = m2 := h1
  replace h2 : mo1 = mo2 := h2
  replace h3 : a1 = a2 := h3
  replace h4 : k1 = k2 := h4
  subst h1; subst h2; subst h3; subst h4
  have hcore : coreBody env ⟨m1, mo1, v1, a1, k1⟩ =
      coreBody env ⟨m1, mo1, v2, a1, k1⟩ := rfl
  simp [tasar, tasar_en_coches_net, hcore]

/-- C9 (witness): the theorem applied to two concrete requests differing
only in trim. -/
theorem C9_witness : tasar envAllGood reqSeat = tasar envAllGood reqSeatFR :=
  C9_version_noninterference envAllGood reqSeat reqSeatFR rfl rfl rfl rfl

/-- C10 (counterexample): the claim as stated is false on the code.  On a
page whose visible result region shows "resultado pendiente", the run
returns `ok = true` with that text as its value although it contains no
euro symbol: the full-document fallback and the error are only reached
when no region yields text at all. -/
theorem C10_counterexample :
    (tasar envRegionJunk reqSeat).1.ok = true ∧
    (tasar envRegionJunk reqSeat).1.valor = some "resultado pendiente" ∧
    '€' ∉ "resultado pendiente".data := by
  decide

/-- C10 (amended): every successful value either contains the euro symbol
(this is guaranteed when it came from the full-document regex fallback or
was cleaned by the region regex) or is verbatim the stripped text of some
visible result region, which need not contain the symbol (see the
counterexample). -/
theorem C10_amended_value_source (env : Env) (req : TasacionRequest)
    (v : String) (_hok : (tasar env req).1.ok = true)
    (hv : (tasar env req).1.valor = some v) :
    '€' ∈ v.data ∨ env.regions.any (regionGives v) = true := by
  cases h : (coreBody env req).1 with
  | error e => simp [tasar, tasar_en_coches_net, h] at hv
  | ok w =>
    have hw : w = v := by
      simp [tasar, tasar_en_coches_net, h] at hv
      exact hv
    subst hw
    exact extract_ok_source (coreBody_ok h)

/-- C10 (witness): the amended theorem applied to a concrete successful
run whose value contains the euro symbol. -/
theorem C10_witness :
    '€' ∈ "12.500 €".data ∨
      envAllGood.regions.any (regionGives "12.500 €") = true :=
  C10_amended_value_source envAllGood reqSeat "12.500 €" (by decide) (by decide)

end Tasauto
